import Mathlib

/-!
Verification of `geektime_dl/gt_apis.py` (the `GkApiClient` session/retry
layer) against its specification.

The module is embedded shallowly:

* JSON values are a small inductive `Json`; server responses are scripted
  as a list `World.script : List HttpResp` consumed in order, one element
  per HTTP POST.
* The client's mutable state (`self._cookies`) together with the remaining
  script and an observable event trace (requests sent, sleeps performed)
  forms a `World`; every operation is a function `World → Except PyExc α × World`.
* Python exceptions are collapsed into three classes, matching exactly the
  three `except` arms of the `_retry` decorator:
  `requestException` (`requests.RequestException`, incl. `raise_for_status`),
  `gkApiError` (the module's `GkApiError`), and `plainExc` (everything else:
  `KeyError`, `IndexError`, `TypeError`, bare `Exception`).
-/

/-- Parsed JSON values, as `resp.json()` produces them. -/
inductive Json where
  | null : Json
  | num  : Int → Json
  | str  : String → Json
  | bool : Bool → Json
  | arr  : List Json → Json
  | obj  : List (String × Json) → Json

/-- Dictionary field access `j[k]` / `j.get(k)`: `none` when `j` is not an
object or lacks the key. -/
def Json.lookup : Json → String → Option Json
  | .obj fs, k => List.lookup k fs
  | _, _ => none

/-- Python truthiness of a JSON value (`if not data: ...`). -/
def Json.truthy : Json → Bool
  | .null => false
  | .num n => n != 0
  | .str s => s != ""
  | .bool b => b
  | .arr xs => !xs.isEmpty
  | .obj fs => !fs.isEmpty

/-- Python `resp.json().get('code') != 0` is False exactly when the field is
present and equal to the integer `0`.  `codeZero` is the negation (the
success test). -/
def codeZero : Option Json → Bool
  | some (.num n) => n == 0
  | _ => false

/-- Python `more == True`: `True == True` and `1 == True` hold in Python. -/
def pyEqTrue : Json → Bool
  | .bool b => b
  | .num n => n == 1
  | _ => false

/-- The three exception classes distinguished by `_retry`. -/
inductive PyExc where
  | requestException : PyExc
  | gkApiError : String → PyExc
  | plainExc : String → PyExc
deriving DecidableEq

/-- A `requests` cookie jar, as key/value pairs.  An empty jar is falsy in
Python, which matters for the `if not self._cookies` lazy-login checks. -/
abbrev Cookies := List (String × String)

/-- Outcome of one HTTP POST at the transport level: either a
`requests.RequestException` (connection error, timeout, or a non-2xx status
raised by `resp.raise_for_status()`), or a 2xx response with a JSON body and
response cookies. -/
inductive HttpResp where
  | fail : HttpResp
  | ok : Json → Cookies → HttpResp

/-- The response-validation part of `GkApiClient._post`: after
`raise_for_status`, if `resp.json().get('code') != 0` raise
`GkApiError('geektime api fail:' + resp.json()['error']['msg'])`
(a missing `error`/`msg` key raises `KeyError`, a non-string message
`TypeError`); otherwise hand back the body and the response cookies. -/
def post : HttpResp → Except PyExc (Json × Cookies)
  | .fail => .error .requestException
  | .ok body ck =>
    if codeZero (body.lookup "code") then .ok (body, ck)
    else
      match (body.lookup "error").bind (fun e => e.lookup "msg") with
      | some (.str m) => .error (.gkApiError ("geektime api fail:" ++ m))
      | some _ => .error (.plainExc "TypeError")
      | none => .error (.plainExc "KeyError")

/-- One outbound HTTP request: URL and optional JSON body (`data=None`
sends no body). -/
structure Request where
  url : String
  body : Option (List (String × Json))

/-- Observable side effects, in order of occurrence. -/
inductive Event where
  | sent : Request → Event
  | slept : Nat → Event

/-- Client state (`self._cookies`), the scripted network, and the event
trace accumulated so far. -/
structure World where
  cookies : Option Cookies
  script : List HttpResp
  trace : List Event

/-- The in-place credential redaction at the top of `_post`
(`for k in ['cellphone', 'password']: if data and k in data: data[k] = 'xxx'`):
it overwrites the request dict itself before `requests.post` serializes it,
so the redacted values are what actually goes over the wire. -/
def redactField (k : String) : List (String × Json) → List (String × Json) :=
  List.map (fun kv => if kv.1 == k then (kv.1, Json.str "xxx") else kv)

/-- `_post`'s redaction on an optional JSON body (`data=None` has no keys
and is left alone), in the source's key order. -/
def redact : Option (List (String × Json)) → Option (List (String × Json))
  | none => none
  | some fields => some (redactField "password" (redactField "cellphone" fields))

/-- Issue one POST: redact the body as `_post` does, record the request as
sent, consume the next scripted response, and validate it with `post`.
An exhausted script behaves like an unresponsive network (transport
failure). -/
def doPost (url : String) (body : Option (List (String × Json))) (w : World) :
    Except PyExc (Json × Cookies) × World :=
  let w' : World := { w with trace := w.trace ++ [.sent ⟨url, redact body⟩] }
  match w'.script with
  | [] => (.error .requestException, w')
  | r :: rest => (post r, { w' with script := rest })

/-- Construction arguments of `GkApiClient.__init__`. -/
structure Config where
  account : String
  password : String
  area : String
  noLogin : Bool
  lazyLogin : Bool

def loginUrl : String := "https://account.geekbang.org/account/ticket/login"

/-- The JSON body `reset_session` posts to the login endpoint. -/
def loginBody (c : Config) : List (String × Json) :=
  [("country", .str c.area), ("cellphone", .str c.account),
   ("password", .str c.password), ("captcha", .str ""),
   ("remember", .num 1), ("platform", .num 3), ("appid", .num 1)]

/-- The login body as it actually goes over the wire: by the time
`requests.post` runs, `_post` has overwritten both `cellphone` and
`password` with `'xxx'`, so the sent body depends only on the area code
and never on the supplied account or password. -/
def wireLoginBody (area : String) : List (String × Json) :=
  [("country", .str area), ("cellphone", .str "xxx"),
   ("password", .str "xxx"), ("captcha", .str ""),
   ("remember", .num 1), ("platform", .num 3), ("appid", .num 1)]

/-- `GkApiClient.reset_session`: POST the credential dict to the login
endpoint (`_post` redacts its `cellphone`/`password` fields in place before
sending) and, on success, replace `self._cookies` wholesale with
`resp.cookies`.  On failure the exception propagates and the cookies are
untouched. -/
def reset_session (c : Config) (w : World) : Except PyExc Unit × World :=
  match doPost loginUrl (some (loginBody c)) w with
  | (.error e, w') => (.error e, w')
  | (.ok (_, ck), w') => (.ok (), { w' with cookies := some ck })

/-- `GkApiClient.__init__`: adopt truthy pre-supplied cookies; otherwise log
in eagerly unless `lazy_login` or `no_login` is set. -/
def init (c : Config) (pre : Option Cookies) (script : List HttpResp) :
    Except PyExc Unit × World :=
  let w : World := { cookies := none, script := script, trace := [] }
  if (match pre with | some ck => !ck.isEmpty | none => false) then
    (.ok (), { w with cookies := pre })
  else if c.lazyLogin || c.noLogin then (.ok (), w)
  else reset_session c w

/-- Python truthiness of `self._cookies` (`None` and the empty jar are
falsy). -/
def cookiesTruthy : Option Cookies → Bool
  | none => false
  | some ck => !ck.isEmpty

/-- The preamble shared by every read operation:
`if not self._cookies and not self._no_login: self.reset_session()`. -/
def ensureSession (c : Config) (w : World) : Except PyExc Unit × World :=
  if !cookiesTruthy w.cookies && !c.noLogin then reset_session c w
  else (.ok (), w)

/-- The `_retry` decorator: run the body once; on `requests.RequestException`
sleep 0.1s, call `reset_session`, and run the body exactly once more,
propagating whatever that second run produces; re-raise `GkApiError`
unchanged; wrap any other exception as `GkApiError("geektime api error")`. -/
def retry {α : Type} (c : Config) (body : World → Except PyExc α × World)
    (w : World) : Except PyExc α × World :=
  match body w with
  | (.ok a, w₁) => (.ok a, w₁)
  | (.error .requestException, w₁) =>
    match reset_session c { w₁ with trace := w₁.trace ++ [.slept 100] } with
    | (.error e, w₂) => (.error e, w₂)
    | (.ok _, w₂) => body w₂
  | (.error (.gkApiError m), w₁) => (.error (.gkApiError m), w₁)
  | (.error (.plainExc _), w₁) => (.error (.gkApiError "geektime api error"), w₁)

/-! ## Read operations -/

def courseListUrl : String := "https://time.geekbang.org/serv/v1/column/all"

/-- Inner body of `get_course_list` (before the `_retry` wrapper):
lazy-login preamble, one POST with no JSON body, return `resp.json()['data']`. -/
def get_course_list_body (c : Config) (w : World) : Except PyExc Json × World :=
  match ensureSession c w with
  | (.error e, w₁) => (.error e, w₁)
  | (.ok _, w₁) =>
    match doPost courseListUrl none w₁ with
    | (.error e, w₂) => (.error e, w₂)
    | (.ok (body, _), w₂) =>
      match body.lookup "data" with
      | some d => (.ok d, w₂)
      | none => (.error (.plainExc "KeyError"), w₂)

def get_course_list (c : Config) (w : World) : Except PyExc Json × World :=
  retry c (get_course_list_body c) w

def articlesUrl : String := "https://time.geekbang.org/serv/v1/column/articles"

/-- The JSON body `get_post_list_of` posts. -/
def postListBody (cid : Int) : List (String × Json) :=
  [("cid", .str (toString cid)), ("size", .num 1000),
   ("prev", .num 0), ("order", .str "newest")]

/-- Inner body of `get_post_list_of`: POST, raise a plain
`Exception('course not exists:<cid>')` when `resp.json()['data']` is falsy,
otherwise return `resp.json()['data']['list'][::-1]`. -/
def get_post_list_of_body (c : Config) (cid : Int) (w : World) :
    Except PyExc Json × World :=
  match ensureSession c w with
  | (.error e, w₁) => (.error e, w₁)
  | (.ok _, w₁) =>
    match doPost articlesUrl (some (postListBody cid)) w₁ with
    | (.error e, w₂) => (.error e, w₂)
    | (.ok (body, _), w₂) =>
      match body.lookup "data" with
      | none => (.error (.plainExc "KeyError"), w₂)
      | some d =>
        if !d.truthy then
          (.error (.plainExc ("course not exists:" ++ toString cid)), w₂)
        else
          match d.lookup "list" with
          | some (.arr xs) => (.ok (.arr xs.reverse), w₂)
          | some (.str s) => (.ok (.str (String.mk s.data.reverse)), w₂)
          | some _ => (.error (.plainExc "TypeError"), w₂)
          | none => (.error (.plainExc "KeyError"), w₂)

def get_post_list_of (c : Config) (cid : Int) (w : World) :
    Except PyExc Json × World :=
  retry c (get_post_list_of_body c cid) w

def introUrl : String := "https://time.geekbang.org/serv/v1/column/intro"

/-- Inner body of `get_course_intro`: POST `{'cid': str(course_id)}`; raise
`GkApiError('无效的课程 ID: <cid>')` when the `data` field is falsy. -/
def get_course_intro_body (c : Config) (cid : Int) (w : World) :
    Except PyExc Json × World :=
  match ensureSession c w with
  | (.error e, w₁) => (.error e, w₁)
  | (.ok _, w₁) =>
    match doPost introUrl (some [("cid", .str (toString cid))]) w₁ with
    | (.error e, w₂) => (.error e, w₂)
    | (.ok (body, _), w₂) =>
      match body.lookup "data" with
      | none => (.error (.plainExc "KeyError"), w₂)
      | some d =>
        if !d.truthy then
          (.error (.gkApiError ("无效的课程 ID: " ++ toString cid)), w₂)
        else (.ok d, w₂)

def get_course_intro (c : Config) (cid : Int) (w : World) :
    Except PyExc Json × World :=
  retry c (get_course_intro_body c cid) w

def articleUrl : String := "https://time.geekbang.org/serv/v1/article"

/-- Inner body of `get_post_content`: POST `{'id': post_id}` and return the
`data` field unchanged. -/
def get_post_content_body (c : Config) (pid : Int) (w : World) :
    Except PyExc Json × World :=
  match ensureSession c w with
  | (.error e, w₁) => (.error e, w₁)
  | (.ok _, w₁) =>
    match doPost articleUrl (some [("id", .num pid)]) w₁ with
    | (.error e, w₂) => (.error e, w₂)
    | (.ok (body, _), w₂) =>
      match body.lookup "data" with
      | some d => (.ok d, w₂)
      | none => (.error (.plainExc "KeyError"), w₂)

def get_post_content (c : Config) (pid : Int) (w : World) :
    Except PyExc Json × World :=
  retry c (get_post_content_body c pid) w

def commentsUrl : String := "https://time.geekbang.org/serv/v1/comments"

/-- The JSON body of one comments-page request: post id plus cursor. -/
def commentsBody (pid : Int) (prev : Json) : List (String × Json) :=
  [("aid", .str (toString pid)), ("prev", prev)]

/-- The `while more == True` pagination loop of `get_post_comments`, with
accumulator `arr` and cursor `prev`.  Per iteration: POST, append
`data['list']` to `arr`, read `data['page']['more']`, then unconditionally
set the cursor to `list[len(list)-1]['score']` (an `IndexError` on an empty
page, even a final one), and loop again iff `more == True`.  `_post`'s
redaction loop only touches `cellphone`/`password` keys, which this body
never contains, so the posted body is `commentsBody` itself
(`redact_commentsBody`). -/
def commentsLoop (pid : Int) (arr : List Json) (prev : Json) (w : World) :
    Except PyExc (List Json) × World :=
  match hs : w.script with
  | [] =>
    (.error .requestException,
     { w with trace := w.trace ++ [.sent ⟨commentsUrl, some (commentsBody pid prev)⟩] })
  | resp :: rest =>
    let w' : World :=
      { cookies := w.cookies, script := rest,
        trace := w.trace ++ [.sent ⟨commentsUrl, some (commentsBody pid prev)⟩] }
    match post resp with
    | .error e => (.error e, w')
    | .ok (body, _) =>
      match body.lookup "data" with
      | none => (.error (.plainExc "KeyError"), w')
      | some d =>
        match d.lookup "list" with
        | none => (.error (.plainExc "KeyError"), w')
        | some lst =>
          match (d.lookup "page").bind (fun p => p.lookup "more") with
          | none => (.error (.plainExc "KeyError"), w')
          | some more =>
            match lst with
            | .arr xs =>
              match xs.getLast? with
              | none => (.error (.plainExc "IndexError"), w')
              | some last =>
                match last.lookup "score" with
                | none => (.error (.plainExc "KeyError"), w')
                | some sc =>
                  if pyEqTrue more then commentsLoop pid (arr ++ [lst]) sc w'
                  else (.ok (arr ++ [lst]), w')
            | _ => (.error (.plainExc "TypeError"), w')
termination_by w.script.length
decreasing_by simp [w', hs]

/-- Inner body of `get_post_comments`: lazy-login preamble, then the
pagination loop starting from an empty accumulator and cursor `0`. -/
def get_post_comments_body (c : Config) (pid : Int) (w : World) :
    Except PyExc (List Json) × World :=
  match ensureSession c w with
  | (.error e, w₁) => (.error e, w₁)
  | (.ok _, w₁) => commentsLoop pid [] (.num 0) w₁

def get_post_comments (c : Config) (pid : Int) (w : World) :
    Except PyExc (List Json) × World :=
  retry c (get_post_comments_body c pid) w

def collectUrl : String := "https://time.geekbang.org/serv/v2/video/GetCollectById"

/-- Inner body of `get_video_collection_intro`: POST
`{'id': str(collection_id)}` and return the `data` field unchanged. -/
def get_video_collection_intro_body (c : Config) (cid : Int) (w : World) :
    Except PyExc Json × World :=
  match ensureSession c w with
  | (.error e, w₁) => (.error e, w₁)
  | (.ok _, w₁) =>
    match doPost collectUrl (some [("id", .str (toString cid))]) w₁ with
    | (.error e, w₂) => (.error e, w₂)
    | (.ok (body, _), w₂) =>
      match body.lookup "data" with
      | some d => (.ok d, w₂)
      | none => (.error (.plainExc "KeyError"), w₂)

def get_video_collection_intro (c : Config) (cid : Int) (w : World) :
    Except PyExc Json × World :=
  retry c (get_video_collection_intro_body c cid) w

/-- Python `range(a, b)`. -/
def pyrange (a b : Nat) : List Nat := List.range' a (b - a)

/-- `list(range(3, 82)) + list(range(104, 141))`. -/
def videoIds : List Nat := pyrange 3 82 ++ pyrange 104 141

/-- `[{'collection_id': id_} for id_ in ids]`. -/
def vcList : List Json := videoIds.map (fun i => Json.obj [("collection_id", .num (i : Int))])

/-- `get_video_collection_list` performs no POST at all: the endpoint was
never reverse-engineered and the ids are hardcoded. -/
def get_video_collection_list (c : Config) (w : World) :
    Except PyExc (List Json) × World :=
  retry c (fun w => (.ok vcList, w)) w

def videoListUrl : String := "https://time.geekbang.org/serv/v2/video/GetListByType"

/-- Inner body of `get_video_list_of`: POST
`{'id': str(collection_id), 'size': 50}` and return `data['list']`. -/
def get_video_list_of_body (c : Config) (cid : Int) (w : World) :
    Except PyExc Json × World :=
  match ensureSession c w with
  | (.error e, w₁) => (.error e, w₁)
  | (.ok _, w₁) =>
    match doPost videoListUrl (some [("id", .str (toString cid)), ("size", .num 50)]) w₁ with
    | (.error e, w₂) => (.error e, w₂)
    | (.ok (body, _), w₂) =>
      match (body.lookup "data").bind (fun d => d.lookup "list") with
      | some l => (.ok l, w₂)
      | none => (.error (.plainExc "KeyError"), w₂)

def get_video_list_of (c : Config) (cid : Int) (w : World) :
    Except PyExc Json × World :=
  retry c (get_video_list_of_body c cid) w

/-! ## Helper lemmas -/

theorem redact_none : redact none = none := rfl

theorem redact_loginBody (c : Config) :
    redact (some (loginBody c)) = some (wireLoginBody c.area) := rfl

theorem redact_postListBody (cid : Int) :
    redact (some (postListBody cid)) = some (postListBody cid) := rfl

theorem redact_commentsBody (pid : Int) (prev : Json) :
    redact (some (commentsBody pid prev)) = some (commentsBody pid prev) := rfl

theorem redact_cid (s : String) :
    redact (some [("cid", Json.str s)]) = some [("cid", Json.str s)] := rfl

theorem redact_id_num (n : Int) :
    redact (some [("id", Json.num n)]) = some [("id", Json.num n)] := rfl

theorem redact_id_str (s : String) :
    redact (some [("id", Json.str s)]) = some [("id", Json.str s)] := rfl

theorem redact_id_size (s : String) (n : Int) :
    redact (some [("id", Json.str s), ("size", Json.num n)])
      = some [("id", Json.str s), ("size", Json.num n)] := rfl

theorem ensureSession_skip (c : Config) (w : World)
    (hck : cookiesTruthy w.cookies = true) :
    ensureSession c w = (.ok (), w) := by
  simp [ensureSession, hck]

theorem ensureSession_noLogin (c : Config) (w : World)
    (hno : c.noLogin = true) :
    ensureSession c w = (.ok (), w) := by
  simp [ensureSession, hno]

theorem reset_session_eq (c : Config) (w : World) (body : Json) (ck : Cookies)
    (rest : List HttpResp)
    (hs : w.script = .ok body ck :: rest)
    (hcode : codeZero (body.lookup "code") = true) :
    reset_session c w =
      (.ok (), ⟨some ck, rest, w.trace ++ [.sent ⟨loginUrl, some (wireLoginBody c.area)⟩]⟩) := by
  obtain ⟨cks, scr, tr⟩ := w
  simp only at hs
  subst hs
  simp [reset_session, doPost, post, hcode, redact_loginBody]

theorem retry_of_ok {α : Type} (c : Config) (body : World → Except PyExc α × World)
    (w w₁ : World) (a : α) (h : body w = (.ok a, w₁)) :
    retry c body w = (.ok a, w₁) := by
  unfold retry
  rw [h]

theorem retry_of_gkApiError {α : Type} (c : Config)
    (body : World → Except PyExc α × World) (w w₁ : World) (m : String)
    (h : body w = (.error (.gkApiError m), w₁)) :
    retry c body w = (.error (.gkApiError m), w₁) := by
  unfold retry
  rw [h]

theorem retry_of_plainExc {α : Type} (c : Config)
    (body : World → Except PyExc α × World) (w w₁ : World) (m : String)
    (h : body w = (.error (.plainExc m), w₁)) :
    retry c body w = (.error (.gkApiError "geektime api error"), w₁) := by
  unfold retry
  rw [h]

/-! ## Claim theorems -/

/-- Claim C1 (code bug): the claim says the login POST body contains the
supplied credential values, but `_post` overwrites `data['cellphone']` and
`data['password']` with `'xxx'` in place before `requests.post`, so the
body that reaches the wire carries `'xxx'` for both fields and is
independent of the supplied account and password.  Evaluated at the
failing input (account "13800138000", password "secret", area "86", login
endpoint answering `{code: 0}` with cookies): the single sent request
carries `wireLoginBody "86"`, the session is still replaced wholesale with
the response cookies, and for every configuration the redacted body
depends only on the area code. -/
theorem reset_session_sends_redacted_credentials :
    reset_session ⟨"13800138000", "secret", "86", false, true⟩
        ⟨none, [.ok (.obj [("code", .num 0)]) [("gksid", "abc")]], []⟩ =
      (.ok (), ⟨some [("gksid", "abc")], [],
        [.sent ⟨loginUrl, some (wireLoginBody "86")⟩]⟩) ∧
    ("cellphone", Json.str "xxx") ∈ wireLoginBody "86" ∧
    ("password", Json.str "xxx") ∈ wireLoginBody "86" ∧
    (∀ account password area noL lazyL,
      redact (some (loginBody ⟨account, password, area, noL, lazyL⟩))
        = some (wireLoginBody area)) :=
  ⟨rfl, by simp [wireLoginBody], by simp [wireLoginBody], fun _ _ _ _ _ => rfl⟩

/-- A no-login client configuration used as a concrete counterexample. -/
def cfgNoLogin : Config := ⟨"13800138000", "secret", "86", true, true⟩

/-- Claim C2 counterexample: a client constructed with `no_login=true` does
NOT keep its session absent for its lifetime.  When the first
`get_course_list` POST fails at the transport level, the `_retry` wrapper
calls `reset_session` unconditionally: a login request is sent and the
response cookies are installed, even though `no_login` is set. -/
theorem noLogin_retry_installs_session :
    get_course_list cfgNoLogin
        ⟨none, [.fail, .ok (.obj [("code", .num 0)]) [("gksid", "s1")]], []⟩ =
      (.error .requestException,
       ⟨some [("gksid", "s1")], [],
        [.sent ⟨courseListUrl, none⟩, .slept 100,
         .sent ⟨loginUrl, some (wireLoginBody "86")⟩,
         .sent ⟨courseListUrl, none⟩]⟩) := by
  rfl

/-- Claim C2 (amended): constructing with `no_login=true` performs no
network call and leaves the session absent, and the per-operation lazy-login
check never logs in while `no_login` is true; the lifetime guarantee however
stops at the first transport failure, whose retry path logs in
unconditionally. -/
theorem noLogin_construction_silent (c : Config) (s : List HttpResp)
    (hno : c.noLogin = true) :
    init c none s = (.ok (), ⟨none, s, []⟩) ∧
    (∀ w : World, ensureSession c w = (.ok (), w)) := by
  constructor
  · simp [init, hno]
  · intro w
    exact ensureSession_noLogin c w hno

/-- Witness for the amended C2. -/
theorem noLogin_construction_silent_witness :
    init cfgNoLogin none [] = (.ok (), ⟨none, [], []⟩) ∧
    (∀ w : World, ensureSession cfgNoLogin w = (.ok (), w)) :=
  noLogin_construction_silent cfgNoLogin [] rfl

/-- Claim C7: `get_video_collection_list` returns, for every client state
and without consuming any scripted response or emitting any event, exactly
the objects built from the identifiers `{3..81} ∪ {104..140}`, 116 entries
in total. -/
theorem get_video_collection_list_spec (c : Config) (w : World) :
    get_video_collection_list c w = (.ok vcList, w) ∧
    vcList = videoIds.map (fun i => Json.obj [("collection_id", .num (i : Int))]) ∧
    videoIds.length = 116 ∧
    (∀ n : Nat, n ∈ videoIds ↔ (3 ≤ n ∧ n ≤ 81) ∨ (104 ≤ n ∧ n ≤ 140)) := by
  refine ⟨by simp [get_video_collection_list, retry], rfl, by decide, ?_⟩
  intro n
  simp [videoIds, pyrange, List.mem_range'_1]
  omega

/-- A lazy-login client configuration used by several witnesses. -/
def cfgLazy : Config := ⟨"13800138000", "secret", "86", false, true⟩

theorem retry_after_transport {α : Type} (c : Config)
    (body : World → Except PyExc α × World) (w w₁ : World)
    (lresp : Json) (ckL : Cookies) (rest : List HttpResp)
    (h1 : body w = (.error .requestException, w₁))
    (hs : w₁.script = .ok lresp ckL :: rest)
    (hcode : codeZero (lresp.lookup "code") = true) :
    retry c body w =
      body ⟨some ckL, rest,
            w₁.trace ++ [.slept 100, .sent ⟨loginUrl, some (wireLoginBody c.area)⟩]⟩ := by
  simp only [retry, h1]
  rw [reset_session_eq c { w₁ with trace := w₁.trace ++ [.slept 100] } lresp ckL rest
        (by simpa using hs) hcode]
  simp only [List.append_assoc, List.singleton_append, List.cons_append, List.nil_append]

/-- Claim C3: for every wrapped operation body, if the first attempt raises
a transport-level error, `_retry` sleeps 100ms, forces a fresh login
(sending the login request and installing the returned cookies), and then
replays the body exactly once on the resulting state; the wrapper returns
exactly whatever that single replay produces, so a second failure
propagates unwrapped with no further retry or login. -/
theorem retry_transport_relogin_replay {α : Type} (c : Config)
    (body : World → Except PyExc α × World) (w w₁ : World)
    (lresp : Json) (ckL : Cookies) (rest : List HttpResp)
    (h1 : body w = (.error .requestException, w₁))
    (hs : w₁.script = .ok lresp ckL :: rest)
    (hcode : codeZero (lresp.lookup "code") = true) :
    retry c body w =
      body ⟨some ckL, rest,
            w₁.trace ++ [.slept 100, .sent ⟨loginUrl, some (wireLoginBody c.area)⟩]⟩ :=
  retry_after_transport c body w w₁ lresp ckL rest h1 hs hcode

/-- Witness for C3: a concrete transport failure on `get_course_list`,
followed by a successful login and a replay on the exhausted script (a
second transport failure, returned unwrapped). -/
theorem retry_transport_relogin_replay_witness :
    retry cfgLazy (get_course_list_body cfgLazy)
        ⟨some [("s", "1")], [.fail, .ok (.obj [("code", .num 0)]) [("t", "2")]], []⟩ =
      get_course_list_body cfgLazy
        ⟨some [("t", "2")], [],
         [.sent ⟨courseListUrl, none⟩, .slept 100,
          .sent ⟨loginUrl, some (wireLoginBody "86")⟩]⟩ :=
  retry_transport_relogin_replay cfgLazy (get_course_list_body cfgLazy)
    ⟨some [("s", "1")], [.fail, .ok (.obj [("code", .num 0)]) [("t", "2")]], []⟩
    ⟨some [("s", "1")], [.ok (.obj [("code", .num 0)]) [("t", "2")]],
     [.sent ⟨courseListUrl, none⟩]⟩
    (.obj [("code", .num 0)]) [("t", "2")] [] rfl rfl rfl

/-- Claim C4: a server envelope with a nonzero `code` makes `_post` raise
`GkApiError` carrying the server-supplied message; `_retry` propagates a
`GkApiError` immediately, unchanged, with no retry and no re-login; hence
every read operation returns that error after exactly one POST, consuming
exactly one scripted response and touching neither cookies nor performing a
login. -/
theorem nonzero_code_api_error (env : Json) (ck : Cookies) (k : Int) (m : String)
    (hcode : env.lookup "code" = some (.num k)) (hk : k ≠ 0)
    (hmsg : (env.lookup "error").bind (fun e => e.lookup "msg") = some (.str m)) :
    post (.ok env ck) = .error (.gkApiError ("geektime api fail:" ++ m)) ∧
    (∀ {α : Type} (c : Config) (body : World → Except PyExc α × World)
        (w w₁ : World) (msg : String),
        body w = (.error (.gkApiError msg), w₁) →
        retry c body w = (.error (.gkApiError msg), w₁)) ∧
    (∀ (c : Config) (w : World) (rest : List HttpResp),
        cookiesTruthy w.cookies = true → w.script = .ok env ck :: rest →
        get_course_list c w =
          (.error (.gkApiError ("geektime api fail:" ++ m)),
           ⟨w.cookies, rest, w.trace ++ [.sent ⟨courseListUrl, none⟩]⟩)) ∧
    (∀ (c : Config) (cid : Int) (w : World) (rest : List HttpResp),
        cookiesTruthy w.cookies = true → w.script = .ok env ck :: rest →
        get_post_list_of c cid w =
          (.error (.gkApiError ("geektime api fail:" ++ m)),
           ⟨w.cookies, rest, w.trace ++ [.sent ⟨articlesUrl, some (postListBody cid)⟩]⟩)) ∧
    (∀ (c : Config) (cid : Int) (w : World) (rest : List HttpResp),
        cookiesTruthy w.cookies = true → w.script = .ok env ck :: rest →
        get_course_intro c cid w =
          (.error (.gkApiError ("geektime api fail:" ++ m)),
           ⟨w.cookies, rest, w.trace ++ [.sent ⟨introUrl, some [("cid", .str (toString cid))]⟩]⟩)) ∧
    (∀ (c : Config) (pid : Int) (w : World) (rest : List HttpResp),
        cookiesTruthy w.cookies = true → w.script = .ok env ck :: rest →
        get_post_content c pid w =
          (.error (.gkApiError ("geektime api fail:" ++ m)),
           ⟨w.cookies, rest, w.trace ++ [.sent ⟨articleUrl, some [("id", .num pid)]⟩]⟩)) ∧
    (∀ (c : Config) (pid : Int) (w : World) (rest : List HttpResp),
        cookiesTruthy w.cookies = true → w.script = .ok env ck :: rest →
        get_post_comments c pid w =
          (.error (.gkApiError ("geektime api fail:" ++ m)),
           ⟨w.cookies, rest, w.trace ++ [.sent ⟨commentsUrl, some (commentsBody pid (.num 0))⟩]⟩)) ∧
    (∀ (c : Config) (cid : Int) (w : World) (rest : List HttpResp),
        cookiesTruthy w.cookies = true → w.script = .ok env ck :: rest →
        get_video_collection_intro c cid w =
          (.error (.gkApiError ("geektime api fail:" ++ m)),
           ⟨w.cookies, rest, w.trace ++ [.sent ⟨collectUrl, some [("id", .str (toString cid))]⟩]⟩)) ∧
    (∀ (c : Config) (cid : Int) (w : World) (rest : List HttpResp),
        cookiesTruthy w.cookies = true → w.script = .ok env ck :: rest →
        get_video_list_of c cid w =
          (.error (.gkApiError ("geektime api fail:" ++ m)),
           ⟨w.cookies, rest,
            w.trace ++ [.sent ⟨videoListUrl, some [("id", .str (toString cid)), ("size", .num 50)]⟩]⟩)) := by
  have hpost : post (.ok env ck) = .error (.gkApiError ("geektime api fail:" ++ m)) := by
    simp [post, codeZero, hcode, hmsg, hk]
  refine ⟨hpost, fun c body w w₁ msg h => retry_of_gkApiError c body w w₁ msg h,
    ?_, ?_, ?_, ?_, ?_, ?_, ?_⟩
  · intro c w rest hck hs
    refine retry_of_gkApiError _ _ _ _ _ ?_
    obtain ⟨cks, scr, tr⟩ := w
    simp only at hck hs
    subst hs
    simp [get_course_list_body, ensureSession, hck, doPost, hpost, redact_none]
  · intro c cid w rest hck hs
    refine retry_of_gkApiError _ _ _ _ _ ?_
    obtain ⟨cks, scr, tr⟩ := w
    simp only at hck hs
    subst hs
    simp [get_post_list_of_body, ensureSession, hck, doPost, hpost, redact_postListBody]
  · intro c cid w rest hck hs
    refine retry_of_gkApiError _ _ _ _ _ ?_
    obtain ⟨cks, scr, tr⟩ := w
    simp only at hck hs
    subst hs
    simp [get_course_intro_body, ensureSession, hck, doPost, hpost, redact_cid]
  · intro c pid w rest hck hs
    refine retry_of_gkApiError _ _ _ _ _ ?_
    obtain ⟨cks, scr, tr⟩ := w
    simp only at hck hs
    subst hs
    simp [get_post_content_body, ensureSession, hck, doPost, hpost, redact_id_num]
  · intro c pid w rest hck hs
    refine retry_of_gkApiError _ _ _ _ _ ?_
    obtain ⟨cks, scr, tr⟩ := w
    simp only at hck hs
    subst hs
    simp [get_post_comments_body, ensureSession, hck, commentsLoop, hpost]
  · intro c cid w rest hck hs
    refine retry_of_gkApiError _ _ _ _ _ ?_
    obtain ⟨cks, scr, tr⟩ := w
    simp only at hck hs
    subst hs
    simp [get_video_collection_intro_body, ensureSession, hck, doPost, hpost, redact_id_str]
  · intro c cid w rest hck hs
    refine retry_of_gkApiError _ _ _ _ _ ?_
    obtain ⟨cks, scr, tr⟩ := w
    simp only at hck hs
    subst hs
    simp [get_video_list_of_body, ensureSession, hck, doPost, hpost, redact_id_size]

/-- Witness for C4: a concrete rejection envelope `{code: 1, error: {msg: "no auth"}}`. -/
theorem nonzero_code_api_error_witness :
    post (.ok (.obj [("code", .num 1), ("error", .obj [("msg", .str "no auth")])]) []) =
      .error (.gkApiError ("geektime api fail:" ++ "no auth")) ∧
    (∀ {α : Type} (c : Config) (body : World → Except PyExc α × World)
        (w w₁ : World) (msg : String),
        body w = (.error (.gkApiError msg), w₁) →
        retry c body w = (.error (.gkApiError msg), w₁)) ∧
    (∀ (c : Config) (w : World) (rest : List HttpResp),
        cookiesTruthy w.cookies = true →
        w.script = .ok (.obj [("code", .num 1), ("error", .obj [("msg", .str "no auth")])]) [] :: rest →
        get_course_list c w =
          (.error (.gkApiError ("geektime api fail:" ++ "no auth")),
           ⟨w.cookies, rest, w.trace ++ [.sent ⟨courseListUrl, none⟩]⟩)) ∧
    (∀ (c : Config) (cid : Int) (w : World) (rest : List HttpResp),
        cookiesTruthy w.cookies = true →
        w.script = .ok (.obj [("code", .num 1), ("error", .obj [("msg", .str "no auth")])]) [] :: rest →
        get_post_list_of c cid w =
          (.error (.gkApiError ("geektime api fail:" ++ "no auth")),
           ⟨w.cookies, rest, w.trace ++ [.sent ⟨articlesUrl, some (postListBody cid)⟩]⟩)) ∧
    (∀ (c : Config) (cid : Int) (w : World) (rest : List HttpResp),
        cookiesTruthy w.cookies = true →
        w.script = .ok (.obj [("code", .num 1), ("error", .obj [("msg", .str "no auth")])]) [] :: rest →
        get_course_intro c cid w =
          (.error (.gkApiError ("geektime api fail:" ++ "no auth")),
           ⟨w.cookies, rest, w.trace ++ [.sent ⟨introUrl, some [("cid", .str (toString cid))]⟩]⟩)) ∧
    (∀ (c : Config) (pid : Int) (w : World) (rest : List HttpResp),
        cookiesTruthy w.cookies = true →
        w.script = .ok (.obj [("code", .num 1), ("error", .obj [("msg", .str "no auth")])]) [] :: rest →
        get_post_content c pid w =
          (.error (.gkApiError ("geektime api fail:" ++ "no auth")),
           ⟨w.cookies, rest, w.trace ++ [.sent ⟨articleUrl, some [("id", .num pid)]⟩]⟩)) ∧
    (∀ (c : Config) (pid : Int) (w : World) (rest : List HttpResp),
        cookiesTruthy w.cookies = true →
        w.script = .ok (.obj [("code", .num 1), ("error", .obj [("msg", .str "no auth")])]) [] :: rest →
        get_post_comments c pid w =
          (.error (.gkApiError ("geektime api fail:" ++ "no auth")),
           ⟨w.cookies, rest, w.trace ++ [.sent ⟨commentsUrl, some (commentsBody pid (.num 0))⟩]⟩)) ∧
    (∀ (c : Config) (cid : Int) (w : World) (rest : List HttpResp),
        cookiesTruthy w.cookies = true →
        w.script = .ok (.obj [("code", .num 1), ("error", .obj [("msg", .str "no auth")])]) [] :: rest →
        get_video_collection_intro c cid w =
          (.error (.gkApiError ("geektime api fail:" ++ "no auth")),
           ⟨w.cookies, rest, w.trace ++ [.sent ⟨collectUrl, some [("id", .str (toString cid))]⟩]⟩)) ∧
    (∀ (c : Config) (cid : Int) (w : World) (rest : List HttpResp),
        cookiesTruthy w.cookies = true →
        w.script = .ok (.obj [("code", .num 1), ("error", .obj [("msg", .str "no auth")])]) [] :: rest →
        get_video_list_of c cid w =
          (.error (.gkApiError ("geektime api fail:" ++ "no auth")),
           ⟨w.cookies, rest,
            w.trace ++ [.sent ⟨videoListUrl, some [("id", .str (toString cid)), ("size", .num 50)]⟩]⟩)) :=
  nonzero_code_api_error
    (.obj [("code", .num 1), ("error", .obj [("msg", .str "no auth")])]) [] 1 "no auth"
    rfl (by decide) rfl

/-! ## Comment pagination model -/

/-- One server-side comments page: the comment objects and the `more` flag. -/
structure Page where
  comments : List Json
  more : Bool

/-- The scripted response delivering a page with a zero `code` envelope. -/
def mkPageResp (p : Page) : HttpResp :=
  .ok (.obj [("code", .num 0),
             ("data", .obj [("list", .arr p.comments),
                            ("page", .obj [("more", .bool p.more)])])]) []

/-- `list[len(list)-1]['score']` of a page, when it exists. -/
def Page.lastScore (p : Page) : Option Json :=
  p.comments.getLast?.bind (fun j => j.lookup "score")

/-- A well-formed page sequence, as `get_post_comments` assumes it: at least
one page, every page ends in a comment carrying a `score`, every page but
the last has `more` true, and the last has `more` false. -/
def pagesOk : List Page → Bool
  | [] => false
  | p :: rest =>
    p.lastScore.isSome &&
    (if rest.isEmpty then p.more == false else p.more == true && pagesOk rest)

/-- The cursor values sent for successive pages: the given initial cursor,
then the last comment's score of each preceding page. -/
def pageCursors (prev : Json) : List Page → List Json
  | [] => []
  | p :: rest => prev :: pageCursors (p.lastScore.getD (.num 0)) rest

theorem commentsLoop_step (pid : Int) (arr : List Json) (prev : Json)
    (p : Page) (rest : List HttpResp) (cks : Option Cookies) (tr : List Event)
    (last sc : Json)
    (hlast : p.comments.getLast? = some last)
    (hscore : last.lookup "score" = some sc) :
    commentsLoop pid arr prev ⟨cks, mkPageResp p :: rest, tr⟩ =
      (if p.more then
        commentsLoop pid (arr ++ [.arr p.comments]) sc
          ⟨cks, rest, tr ++ [.sent ⟨commentsUrl, some (commentsBody pid prev)⟩]⟩
      else
        (.ok (arr ++ [.arr p.comments]),
         ⟨cks, rest, tr ++ [.sent ⟨commentsUrl, some (commentsBody pid prev)⟩]⟩)) := by
  have hcodeL : (Json.obj [("code", Json.num 0),
      ("data", Json.obj [("list", Json.arr p.comments),
        ("page", Json.obj [("more", Json.bool p.more)])])]).lookup "code"
      = some (Json.num 0) := rfl
  have hdata : (Json.obj [("code", Json.num 0),
      ("data", Json.obj [("list", Json.arr p.comments),
        ("page", Json.obj [("more", Json.bool p.more)])])]).lookup "data"
      = some (Json.obj [("list", Json.arr p.comments),
        ("page", Json.obj [("more", Json.bool p.more)])]) := rfl
  have hlist : (Json.obj [("list", Json.arr p.comments),
      ("page", Json.obj [("more", Json.bool p.more)])]).lookup "list"
      = some (Json.arr p.comments) := rfl
  have hpage : (Json.obj [("list", Json.arr p.comments),
      ("page", Json.obj [("more", Json.bool p.more)])]).lookup "page"
      = some (Json.obj [("more", Json.bool p.more)]) := rfl
  have hmoreL : (Json.obj [("more", Json.bool p.more)]).lookup "more"
      = some (Json.bool p.more) := rfl
  rw [commentsLoop.eq_def]
  simp [mkPageResp, post, codeZero, pyEqTrue, hcodeL, hdata, hlist, hpage, hmoreL,
    hlast, hscore]

theorem pagesOk_single (p : Page) :
    pagesOk [p] = (p.lastScore.isSome && p.more == false) := rfl

theorem pagesOk_cons_cons (p q : Page) (rest : List Page) :
    pagesOk (p :: q :: rest) =
      (p.lastScore.isSome && (p.more == true && pagesOk (q :: rest))) := rfl

theorem commentsLoop_pages (pid : Int) (pages : List Page) (arr : List Json)
    (prev : Json) (w : World)
    (hs : w.script = pages.map mkPageResp)
    (hwf : pagesOk pages = true) :
    commentsLoop pid arr prev w =
      (.ok (arr ++ pages.map (fun p => Json.arr p.comments)),
       ⟨w.cookies, [],
        w.trace ++ (pageCursors prev pages).map
          (fun pv => .sent ⟨commentsUrl, some (commentsBody pid pv)⟩)⟩) := by
  induction pages generalizing arr prev w with
  | nil => simp [pagesOk] at hwf
  | cons p rest ih =>
    obtain ⟨cks, scr, tr⟩ := w
    simp only at hs
    subst hs
    cases rest with
    | nil =>
      rw [pagesOk_single] at hwf
      simp only [Bool.and_eq_true, beq_iff_eq] at hwf
      obtain ⟨hsc, hm⟩ := hwf
      obtain ⟨sc, hLS⟩ := Option.isSome_iff_exists.mp hsc
      have hbind := hLS
      rw [Page.lastScore, Option.bind_eq_some] at hbind
      obtain ⟨last, hlast, hscore⟩ := hbind
      rw [List.map_cons,
        commentsLoop_step pid arr prev p (([] : List Page).map mkPageResp) cks tr last sc hlast hscore]
      simp [hm, pageCursors, hLS]
    | cons q rest' =>
      rw [pagesOk_cons_cons] at hwf
      simp only [Bool.and_eq_true, beq_iff_eq] at hwf
      obtain ⟨hsc, hm, hrest⟩ := hwf
      obtain ⟨sc, hLS⟩ := Option.isSome_iff_exists.mp hsc
      have hbind := hLS
      rw [Page.lastScore, Option.bind_eq_some] at hbind
      obtain ⟨last, hlast, hscore⟩ := hbind
      have hIH := ih (arr ++ [Json.arr p.comments]) sc
        ⟨cks, List.map mkPageResp (q :: rest'),
         tr ++ [Event.sent ⟨commentsUrl, some (commentsBody pid prev)⟩]⟩ rfl hrest
      rw [List.map_cons,
        commentsLoop_step pid arr prev p ((q :: rest').map mkPageResp) cks tr last sc hlast hscore,
        hm, if_pos rfl, hIH]
      simp [pageCursors, hLS, List.append_assoc]

theorem pagesOk_ne_nil (pages : List Page) (h : pagesOk pages = true) :
    pages ≠ [] := by
  cases pages with
  | nil => simp [pagesOk] at h
  | cons p rest => simp

theorem pageCursors_eq (prev : Json) (pages : List Page) (h : pages ≠ []) :
    pageCursors prev pages =
      prev :: pages.dropLast.map (fun p => p.lastScore.getD (.num 0)) := by
  induction pages generalizing prev with
  | nil => exact absurd rfl h
  | cons p rest ih =>
    cases rest with
    | nil => simp [pageCursors]
    | cons q rest' =>
      rw [pageCursors, ih (p.lastScore.getD (.num 0)) (by simp)]
      simp [List.dropLast]

/-- Claim C5: when the server delivers a well-formed sequence of comment
pages, `get_post_comments` returns the per-page comment lists in arrival
order (one list per page, not flattened); the cursor sent for the first
page is `0`, the cursor sent for each subsequent page is the `score` of the
last comment of the previous page, and the loop stops exactly at the first
page whose `more` flag is false, consuming the whole script. -/
theorem get_post_comments_pages (c : Config) (pid : Int) (pages : List Page)
    (w : World)
    (hck : cookiesTruthy w.cookies = true)
    (hs : w.script = pages.map mkPageResp)
    (hwf : pagesOk pages = true) :
    get_post_comments c pid w =
      (.ok (pages.map (fun p => Json.arr p.comments)),
       ⟨w.cookies, [],
        w.trace ++ (pageCursors (.num 0) pages).map
          (fun pv => .sent ⟨commentsUrl, some (commentsBody pid pv)⟩)⟩) ∧
    pageCursors (.num 0) pages =
      (.num 0) :: pages.dropLast.map (fun p => p.lastScore.getD (.num 0)) := by
  refine ⟨?_, pageCursors_eq (.num 0) pages (pagesOk_ne_nil pages hwf)⟩
  have hb : get_post_comments_body c pid w =
      (.ok (pages.map (fun p => Json.arr p.comments)),
       ⟨w.cookies, [],
        w.trace ++ (pageCursors (.num 0) pages).map
          (fun pv => .sent ⟨commentsUrl, some (commentsBody pid pv)⟩)⟩) := by
    unfold get_post_comments_body
    rw [ensureSession_skip c w hck]
    exact commentsLoop_pages pid pages [] (.num 0) w hs hwf
  exact retry_of_ok c _ w _ _ hb

/-- The two-page example from the specification: `P1` ends in a comment
with score 5 and has `more` true; `P2` has `more` false. -/
def pageA : Page := ⟨[.obj [("score", .num 3)], .obj [("score", .num 5)]], true⟩

def pageB : Page := ⟨[.obj [("score", .num 7)]], false⟩

/-- Witness for C5: on pages `pageA`, `pageB` the result keeps the two
page lists separate and the cursor sent for the second page is `5`. -/
theorem get_post_comments_pages_witness :
    get_post_comments cfgLazy 320569
        ⟨some [("s", "1")], [mkPageResp pageA, mkPageResp pageB], []⟩ =
      (.ok [Json.arr pageA.comments, Json.arr pageB.comments],
       ⟨some [("s", "1")], [],
        [.sent ⟨commentsUrl, some (commentsBody 320569 (.num 0))⟩,
         .sent ⟨commentsUrl, some (commentsBody 320569 (.num 5))⟩]⟩) ∧
    pageCursors (.num 0) [pageA, pageB] = [.num 0, .num 5] :=
  get_post_comments_pages cfgLazy 320569 [pageA, pageB]
    ⟨some [("s", "1")], [mkPageResp pageA, mkPageResp pageB], []⟩ rfl rfl rfl

/-- Claim C6: `get_post_list_of` posts a request for up to 1000 items
ordered newest-first (`size` 1000, `prev` 0, `order` "newest") and returns
the server's list reversed into chronological order. -/
theorem get_post_list_reverses (c : Config) (cid : Int) (w : World)
    (xs : List Json) (ck : Cookies) (rest : List HttpResp)
    (hck : cookiesTruthy w.cookies = true)
    (hs : w.script =
      .ok (.obj [("code", .num 0), ("data", .obj [("list", .arr xs)])]) ck :: rest) :
    get_post_list_of c cid w =
      (.ok (.arr xs.reverse),
       ⟨w.cookies, rest, w.trace ++ [.sent ⟨articlesUrl, some (postListBody cid)⟩]⟩) ∧
    ("size", Json.num 1000) ∈ postListBody cid ∧
    ("order", Json.str "newest") ∈ postListBody cid ∧
    ("prev", Json.num 0) ∈ postListBody cid := by
  refine ⟨?_, by simp [postListBody], by simp [postListBody], by simp [postListBody]⟩
  refine retry_of_ok c _ w _ _ ?_
  obtain ⟨cks, scr, tr⟩ := w
  simp only at hck hs
  subst hs
  have hpost : post (.ok (Json.obj [("code", Json.num 0),
      ("data", Json.obj [("list", Json.arr xs)])]) ck)
      = .ok (Json.obj [("code", Json.num 0),
          ("data", Json.obj [("list", Json.arr xs)])], ck) := rfl
  have hdata : (Json.obj [("code", Json.num 0),
      ("data", Json.obj [("list", Json.arr xs)])]).lookup "data"
      = some (Json.obj [("list", Json.arr xs)]) := rfl
  have hlist : (Json.obj [("list", Json.arr xs)]).lookup "list"
      = some (Json.arr xs) := rfl
  have htr : (Json.obj [("list", Json.arr xs)]).truthy = true := rfl
  simp [get_post_list_of_body, ensureSession, hck, doPost, hpost, hdata, hlist, htr,
    redact_postListBody]

/-- Witness for C6: a three-post list `[p1(newest), p2, p3(oldest)]` comes
back as `[p3, p2, p1]`. -/
theorem get_post_list_reverses_witness :
    get_post_list_of cfgLazy 48
        ⟨some [("s", "1")],
         [.ok (.obj [("code", .num 0),
            ("data", .obj [("list",
              .arr [.str "p1", .str "p2", .str "p3"])])]) [],
          .fail], []⟩ =
      (.ok (.arr [.str "p3", .str "p2", .str "p1"]),
       ⟨some [("s", "1")], [.fail],
        [.sent ⟨articlesUrl, some (postListBody 48)⟩]⟩) ∧
    ("size", Json.num 1000) ∈ postListBody 48 ∧
    ("order", Json.str "newest") ∈ postListBody 48 ∧
    ("prev", Json.num 0) ∈ postListBody 48 :=
  get_post_list_reverses cfgLazy 48
    ⟨some [("s", "1")],
     [.ok (.obj [("code", .num 0),
        ("data", .obj [("list", .arr [.str "p1", .str "p2", .str "p3"])])]) [],
      .fail], []⟩
    [.str "p1", .str "p2", .str "p3"] [] [.fail] rfl rfl

/-- Claim C9: when the `data` field of the post-list response is falsy
(empty or null), the operation's body raises the plain
`Exception('course not exists:<cid>')`; the `_retry` wrapper does not
retry it but wraps it, so the caller sees `GkApiError` after exactly one
POST. -/
theorem get_post_list_course_not_found (c : Config) (cid : Int) (w : World)
    (d : Json) (ck : Cookies) (rest : List HttpResp)
    (hck : cookiesTruthy w.cookies = true)
    (hs : w.script = .ok (.obj [("code", .num 0), ("data", d)]) ck :: rest)
    (hd : d.truthy = false) :
    get_post_list_of_body c cid w =
      (.error (.plainExc ("course not exists:" ++ toString cid)),
       ⟨w.cookies, rest, w.trace ++ [.sent ⟨articlesUrl, some (postListBody cid)⟩]⟩) ∧
    get_post_list_of c cid w =
      (.error (.gkApiError "geektime api error"),
       ⟨w.cookies, rest, w.trace ++ [.sent ⟨articlesUrl, some (postListBody cid)⟩]⟩) := by
  obtain ⟨cks, scr, tr⟩ := w
  simp only at hck hs
  subst hs
  have hpost : post (.ok (Json.obj [("code", Json.num 0), ("data", d)]) ck)
      = .ok (Json.obj [("code", Json.num 0), ("data", d)], ck) := rfl
  have hdata : (Json.obj [("code", Json.num 0), ("data", d)]).lookup "data"
      = some d := rfl
  have hb : get_post_list_of_body c cid
      ⟨cks, .ok (.obj [("code", .num 0), ("data", d)]) ck :: rest, tr⟩ =
      (.error (.plainExc ("course not exists:" ++ toString cid)),
       ⟨cks, rest, tr ++ [.sent ⟨articlesUrl, some (postListBody cid)⟩]⟩) := by
    simp [get_post_list_of_body, ensureSession, hck, doPost, hpost, hdata, hd,
      redact_postListBody]
  exact ⟨hb, retry_of_plainExc c _ _ _ _ hb⟩

/-- Witness for C9: an empty `data` object for course 9999. -/
theorem get_post_list_course_not_found_witness :
    get_post_list_of_body cfgLazy 9999
        ⟨some [("s", "1")],
         [.ok (.obj [("code", .num 0), ("data", .obj [])]) []], []⟩ =
      (.error (.plainExc ("course not exists:" ++ toString (9999 : Int))),
       ⟨some [("s", "1")], [], [.sent ⟨articlesUrl, some (postListBody 9999)⟩]⟩) ∧
    get_post_list_of cfgLazy 9999
        ⟨some [("s", "1")],
         [.ok (.obj [("code", .num 0), ("data", .obj [])]) []], []⟩ =
      (.error (.gkApiError "geektime api error"),
       ⟨some [("s", "1")], [], [.sent ⟨articlesUrl, some (postListBody 9999)⟩]⟩) :=
  get_post_list_course_not_found cfgLazy 9999
    ⟨some [("s", "1")], [.ok (.obj [("code", .num 0), ("data", .obj [])]) []], []⟩
    (.obj []) [] [] rfl rfl rfl

/-- Claim C10: a comments page whose `list` is empty makes the loop raise
`IndexError` when it unconditionally advances the cursor to
`list[len(list)-1]['score']` — even when that page's `more` flag is false —
and the caller receives the wrapped `GkApiError` instead of the pages
accumulated so far. -/
theorem get_post_comments_empty_page (c : Config) (pid : Int) (w : World)
    (more : Bool) (rest : List HttpResp)
    (hck : cookiesTruthy w.cookies = true)
    (hs : w.script = mkPageResp ⟨[], more⟩ :: rest) :
    get_post_comments_body c pid w =
      (.error (.plainExc "IndexError"),
       ⟨w.cookies, rest, w.trace ++ [.sent ⟨commentsUrl, some (commentsBody pid (.num 0))⟩]⟩) ∧
    get_post_comments c pid w =
      (.error (.gkApiError "geektime api error"),
       ⟨w.cookies, rest, w.trace ++ [.sent ⟨commentsUrl, some (commentsBody pid (.num 0))⟩]⟩) := by
  obtain ⟨cks, scr, tr⟩ := w
  simp only at hck hs
  subst hs
  have hpost : post (mkPageResp ⟨[], more⟩)
      = .ok (.obj [("code", .num 0),
          ("data", .obj [("list", .arr []),
            ("page", .obj [("more", .bool more)])])], []) := rfl
  have hdata : (Json.obj [("code", Json.num 0),
      ("data", Json.obj [("list", Json.arr []),
        ("page", Json.obj [("more", Json.bool more)])])]).lookup "data"
      = some (Json.obj [("list", Json.arr []),
        ("page", Json.obj [("more", Json.bool more)])]) := rfl
  have hlist : (Json.obj [("list", Json.arr []),
      ("page", Json.obj [("more", Json.bool more)])]).lookup "list"
      = some (Json.arr []) := rfl
  have hpage : (Json.obj [("list", Json.arr []),
      ("page", Json.obj [("more", Json.bool more)])]).lookup "page"
      = some (Json.obj [("more", Json.bool more)]) := rfl
  have hmore : (Json.obj [("more", Json.bool more)]).lookup "more"
      = some (Json.bool more) := rfl
  have hb : get_post_comments_body c pid
      ⟨cks, mkPageResp ⟨[], more⟩ :: rest, tr⟩ =
      (.error (.plainExc "IndexError"),
       ⟨cks, rest, tr ++ [.sent ⟨commentsUrl, some (commentsBody pid (.num 0))⟩]⟩) := by
    unfold get_post_comments_body
    rw [ensureSession_skip c ⟨cks, mkPageResp ⟨[], more⟩ :: rest, tr⟩ hck]
    show commentsLoop pid [] (.num 0) ⟨cks, mkPageResp ⟨[], more⟩ :: rest, tr⟩ = _
    rw [commentsLoop.eq_def]
    simp [hpost, hdata, hlist, hpage, hmore]
  exact ⟨hb, retry_of_plainExc c _ _ _ _ hb⟩

/-- Witness for C10: a single empty page with `more` false. -/
theorem get_post_comments_empty_page_witness :
    get_post_comments_body cfgLazy 320569
        ⟨some [("s", "1")], [mkPageResp ⟨[], false⟩], []⟩ =
      (.error (.plainExc "IndexError"),
       ⟨some [("s", "1")], [],
        [.sent ⟨commentsUrl, some (commentsBody 320569 (.num 0))⟩]⟩) ∧
    get_post_comments cfgLazy 320569
        ⟨some [("s", "1")], [mkPageResp ⟨[], false⟩], []⟩ =
      (.error (.gkApiError "geektime api error"),
       ⟨some [("s", "1")], [],
        [.sent ⟨commentsUrl, some (commentsBody 320569 (.num 0))⟩]⟩) :=
  get_post_comments_empty_page cfgLazy 320569
    ⟨some [("s", "1")], [mkPageResp ⟨[], false⟩], []⟩ false [] rfl rfl

/-- Claim C8: when a page request in the middle of comment pagination fails
at the transport level, the whole body fails with that transport error —
the pages accumulated so far are discarded, not returned — and the retry
wrapper's replay restarts the pagination from the first page: an empty
accumulator and cursor `0` on the post-login state. -/
theorem get_post_comments_restarts (c : Config) (pid : Int) (w : World)
    (p : Page) (last sc lresp : Json) (ckL : Cookies) (rest : List HttpResp)
    (hck : cookiesTruthy w.cookies = true)
    (hlast : p.comments.getLast? = some last)
    (hscore : last.lookup "score" = some sc)
    (hpm : p.more = true)
    (hs : w.script = mkPageResp p :: .fail :: .ok lresp ckL :: rest)
    (hcode : codeZero (lresp.lookup "code") = true)
    (hckL : ckL.isEmpty = false) :
    get_post_comments_body c pid w =
      (.error .requestException,
       ⟨w.cookies, .ok lresp ckL :: rest,
        w.trace ++ [.sent ⟨commentsUrl, some (commentsBody pid (.num 0))⟩,
                    .sent ⟨commentsUrl, some (commentsBody pid sc)⟩]⟩) ∧
    get_post_comments c pid w =
      commentsLoop pid [] (.num 0)
        ⟨some ckL, rest,
         w.trace ++ [.sent ⟨commentsUrl, some (commentsBody pid (.num 0))⟩,
                     .sent ⟨commentsUrl, some (commentsBody pid sc)⟩,
                     .slept 100, .sent ⟨loginUrl, some (wireLoginBody c.area)⟩]⟩ := by
  obtain ⟨cks, scr, tr⟩ := w
  simp only at hck hs
  subst hs
  have hb : get_post_comments_body c pid
      ⟨cks, mkPageResp p :: .fail :: .ok lresp ckL :: rest, tr⟩ =
      (.error .requestException,
       ⟨cks, .ok lresp ckL :: rest,
        tr ++ [.sent ⟨commentsUrl, some (commentsBody pid (.num 0))⟩,
               .sent ⟨commentsUrl, some (commentsBody pid sc)⟩]⟩) := by
    unfold get_post_comments_body
    rw [ensureSession_skip c ⟨cks, mkPageResp p :: .fail :: .ok lresp ckL :: rest, tr⟩ hck]
    show commentsLoop pid [] (.num 0)
        ⟨cks, mkPageResp p :: .fail :: .ok lresp ckL :: rest, tr⟩ = _
    rw [commentsLoop_step pid [] (.num 0) p (.fail :: .ok lresp ckL :: rest) cks tr
          last sc hlast hscore, hpm, if_pos rfl, commentsLoop.eq_def]
    simp [post]
  refine ⟨hb, ?_⟩
  have h2 := retry_after_transport c (get_post_comments_body c pid)
      ⟨cks, mkPageResp p :: .fail :: .ok lresp ckL :: rest, tr⟩
      ⟨cks, .ok lresp ckL :: rest,
       tr ++ [.sent ⟨commentsUrl, some (commentsBody pid (.num 0))⟩,
              .sent ⟨commentsUrl, some (commentsBody pid sc)⟩]⟩
      lresp ckL rest hb rfl hcode
  unfold get_post_comments
  rw [h2]
  simp [get_post_comments_body, ensureSession, cookiesTruthy, hckL, List.append_assoc]

/-- Witness for C8: one good page, then a transport failure, then a
successful login; the wrapper restarts pagination from cursor 0. -/
theorem get_post_comments_restarts_witness :
    get_post_comments_body cfgLazy 320569
        ⟨some [("s", "1")],
         [mkPageResp pageA, .fail, .ok (.obj [("code", .num 0)]) [("t", "2")]], []⟩ =
      (.error .requestException,
       ⟨some [("s", "1")], [.ok (.obj [("code", .num 0)]) [("t", "2")]],
        [.sent ⟨commentsUrl, some (commentsBody 320569 (.num 0))⟩,
         .sent ⟨commentsUrl, some (commentsBody 320569 (.num 5))⟩]⟩) ∧
    get_post_comments cfgLazy 320569
        ⟨some [("s", "1")],
         [mkPageResp pageA, .fail, .ok (.obj [("code", .num 0)]) [("t", "2")]], []⟩ =
      commentsLoop 320569 [] (.num 0)
        ⟨some [("t", "2")], [],
         [.sent ⟨commentsUrl, some (commentsBody 320569 (.num 0))⟩,
          .sent ⟨commentsUrl, some (commentsBody 320569 (.num 5))⟩,
          .slept 100, .sent ⟨loginUrl, some (wireLoginBody "86")⟩]⟩ :=
  get_post_comments_restarts cfgLazy 320569
    ⟨some [("s", "1")],
     [mkPageResp pageA, .fail, .ok (.obj [("code", .num 0)]) [("t", "2")]], []⟩
    pageA (.obj [("score", .num 5)]) (.num 5) (.obj [("code", .num 0)])
    [("t", "2")] [] rfl rfl rfl rfl rfl rfl rfl
